import Mathlib

/-!
Verification of the data-validator core (chunked cross-database table
comparison) against its Python source. Shallow embedding: every definition
below mirrors a concrete function of the repository, with the file and line
numbers given in its doc comment. Machine behaviour that the generated SQL or
PL/SQL exhibits on the remote engine (three-valued NULL comparison, NULL
concatenation, ORDER BY direction defaults) is embedded directly as the
semantics of the corresponding builder.
-/

namespace DataValidator

/-! ## Calendar model (Python datetime, proleptic Gregorian)

The window checker receives Python datetime values; weekday numbering is
Monday = 0 .. Sunday = 6, and date.toordinal counts days from 0001-01-01 = 1.
-/

/-- Time of day as hour and minute; the run-window times and the concrete
check times of the spec carry zero seconds, so comparisons reduce to the
(hour, minute) lexicographic order Python uses on time objects. -/
structure TimeOfDay where
  hour : Nat
  minute : Nat
  deriving DecidableEq, Repr

def TimeOfDay.toMinutes (t : TimeOfDay) : Nat :=
  t.hour * 60 + t.minute

/-- Python `a <= b` on time objects. -/
def timeLe (a b : TimeOfDay) : Bool :=
  a.toMinutes ≤ b.toMinutes

/-- Python `a < b` on time objects. -/
def timeLt (a b : TimeOfDay) : Bool :=
  a.toMinutes < b.toMinutes

/-- Calendar date (proleptic Gregorian, year ≥ 1). -/
structure CalDate where
  year : Nat
  month : Nat
  day : Nat
  deriving DecidableEq, Repr

/-- Python datetime: a date plus a time of day. -/
structure DateTime where
  date : CalDate
  time : TimeOfDay
  deriving DecidableEq, Repr

def isLeapYear (y : Nat) : Bool :=
  (y % 4 == 0 && y % 100 != 0) || y % 400 == 0

/-- Days in the months preceding month m (1-based) of a year with the given
leap flag. -/
def daysBeforeMonth (leap : Bool) (m : Nat) : Nat :=
  let base := [0, 31, 59, 90, 120, 151, 181, 212, 243, 273, 304, 334].getD (m - 1) 0
  if 2 < m && leap then base + 1 else base

/-- Python date.toordinal: 0001-01-01 is day 1. -/
def toOrdinal (d : CalDate) : Nat :=
  let py := d.year - 1
  py * 365 + py / 4 - py / 100 + py / 400 + daysBeforeMonth (isLeapYear d.year) d.month + d.day

/-- Python date.weekday: Monday = 0 .. Sunday = 6. Day 1 (0001-01-01) is a
Monday in the proleptic Gregorian calendar. -/
def weekday (d : CalDate) : Nat :=
  (toOrdinal d + 6) % 7

/-! ## Run window (config.py RunWindow, utils/window_checker.py WindowChecker) -/

/-- RunWindow (config.py lines 65-68): start and end time of day plus the
allowed weekdays, defaulting to all seven. -/
structure RunWindow where
  start_time : TimeOfDay
  end_time : TimeOfDay
  days_of_week : List Nat
  deriving DecidableEq, Repr

/-- WindowChecker.is_within_window (window_checker.py lines 14-39). With no
window configured the answer is always true; otherwise the current weekday
must be allowed and the current time must fall in the window, where a window
whose start exceeds its end crosses midnight and admits times at or after the
start or at or before the end. -/
def is_within_window (run_window : Option RunWindow) (check_time : DateTime) : Bool :=
  match run_window with
  | none => true
  | some w =>
    let current_time := check_time.time
    let current_day := weekday check_time.date
    if !(w.days_of_week.contains current_day) then
      false
    else if timeLe w.start_time w.end_time then
      timeLe w.start_time current_time && timeLe current_time w.end_time
    else
      timeLe w.start_time current_time || timeLe current_time w.end_time

def secondsPerDay : Int := 86400

def TimeOfDay.toSeconds (t : TimeOfDay) : Int :=
  ((t.hour * 60 + t.minute) * 60 : Nat)

/-- WindowChecker.seconds_until_window_opens (window_checker.py lines 41-77).
With no window it returns 0 immediately; inside the window it returns 0;
otherwise it scans days_ahead = 0..6, skips today when the start time has
already passed, and for the first allowed day returns the non-negative
difference between that day at the start time and now. The difference of the
two datetime values is days_ahead whole days plus the difference of the two
times of day, in seconds. The scan can fall off the end (the source comments
that this should not happen for a non-empty day list), giving none. -/
def seconds_until_window_opens (run_window : Option RunWindow) (now : DateTime) : Option Int :=
  match run_window with
  | none => some 0
  | some w =>
    if is_within_window (some w) now then
      some 0
    else
      let current_day := weekday now.date
      let current_time := now.time
      ((List.range 7).filterMap (fun days_ahead =>
        let check_day := (current_day + days_ahead) % 7
        if w.days_of_week.contains check_day then
          if days_ahead == 0 && timeLt w.start_time current_time then
            none
          else
            some (max 0 ((days_ahead : Int) * secondsPerDay +
              w.start_time.toSeconds - current_time.toSeconds))
        else
          none)).head?

/-- The 09:00-17:00 weekday window of the spec examples. -/
def weekdayWindow : RunWindow :=
  ⟨⟨9, 0⟩, ⟨17, 0⟩, [0, 1, 2, 3, 4]⟩

/-- The 22:00-02:00 every-day window of the spec examples; start exceeds end,
so it crosses midnight. -/
def midnightWindow : RunWindow :=
  ⟨⟨22, 0⟩, ⟨2, 0⟩, [0, 1, 2, 3, 4, 5, 6]⟩

/-! ## SQL value and row model

Rows travel through the validator as maps from column name to a nullable
textual value (the generated SQL renders every compared value through TO_CHAR
or compares it in its canonical textual form). NULL is modelled as none.
-/

/-- A nullable SQL scalar in its textual form. -/
abbrev SqlVal := Option String

/-- A row: association list from column name to value. A column absent from
the list reads as NULL. -/
abbrev Row := List (String × SqlVal)

def colVal (r : Row) (c : String) : SqlVal :=
  match r.lookup c with
  | some v => v
  | none => none

/-- SQL equality as used in the join condition t.k = s.k: true only when both
sides are non-NULL and equal (three-valued logic makes every comparison with
NULL not-true). -/
def sqlEq (a b : SqlVal) : Bool :=
  match a, b with
  | some x, some y => x == y
  | _, _ => false

/-- Column metadata from user_tab_columns: column name to Oracle data type,
as returned by TableValidator._get_column_info (table_validator.py 285-295). -/
abbrev ColumnInfo := List (String × String)

/-- Python column_info.get(col). -/
def dataType (info : ColumnInfo) (c : String) : Option String :=
  info.lookup c

/-- The membership test column_info.get(col) in [VARCHAR2, CHAR, CLOB] used
throughout _build_chunk_plsql; a missing column yields Python None, which is
not in the list. -/
def isStringType (info : ColumnInfo) (c : String) : Bool :=
  [some "VARCHAR2", some "CHAR", some "CLOB"].contains (dataType info c)

/-- The test column_info.get(col) == DATE. -/
def isDateType (info : ColumnInfo) (c : String) : Bool :=
  dataType info c == some "DATE"

/-! ## Row comparison (table_validator.py _build_chunk_plsql lines 381-402) -/

/-- The string-typed comparison branch (lines 386-392): target NULL with
source non-NULL, or target non-NULL with source NULL, or both non-NULL and
unequal. -/
def stringColumnDiffers (t s : SqlVal) : Bool :=
  match t, s with
  | none, some _ => true
  | some _, none => true
  | some x, some y => x != y
  | none, none => false

/-- The numeric and date comparison branch (lines 393-399): the two
one-sided NULL disjuncts plus a bare SQL inequality, which under three-valued
logic is not-true when either side is NULL, so the branch coincides with the
string branch on the textual forms. -/
def otherColumnDiffers (t s : SqlVal) : Bool :=
  match t, s with
  | none, some _ => true
  | some _, none => true
  | some x, some y => x != y
  | none, none => false

/-- Dispatch on the declared type, as the builder does per column. -/
def columnDiffers (info : ColumnInfo) (c : String) (t s : Row) : Bool :=
  if isStringType info c then stringColumnDiffers (colVal t c) (colVal s c)
  else otherColumnDiffers (colVal t c) (colVal s c)

/-- The comparison_condition of line 402: the OR of the per-column difference
tests over the non-key compared columns, and the literal false condition 1=0
when no such column exists. -/
def comparisonCondition (info : ColumnInfo) (columns natural_keys : List String)
    (t s : Row) : Bool :=
  (columns.filter (fun c => !(natural_keys.contains c))).any
    (fun c => columnDiffers info c t s)

/-- The columns handed to the chunk builder: all table columns minus the
excluded ones (_validate_in_chunks lines 159-160). -/
def columnsToCompare (all_columns exclude_columns : List String) : List String :=
  all_columns.filter (fun c => !(exclude_columns.contains c))

/-- The LEFT JOIN match for one target row (lines 523-525): the source row
agreeing with it on every natural-key column under SQL equality. The natural
key uniquely identifies a row, so the first match is the only one. -/
def findSourceMatch (source : List Row) (natural_keys : List String) (t : Row) :
    Option Row :=
  source.find? (fun s => natural_keys.all (fun k => sqlEq (colVal t k) (colVal s k)))

/-- The CASE classifier of the c_data cursor (lines 518-522): MISSING when the
first natural-key column of the joined source side IS NULL, which under the
join condition happens exactly when the left join found no source match (a
matched source row cannot carry a NULL join key); MISMATCH when the
comparison condition holds; MATCH otherwise. Note the row being classified is
a TARGET row: the cursor reads FROM target LEFT JOIN source. -/
def rowStatus (source : List Row) (info : ColumnInfo) (columns natural_keys : List String)
    (t : Row) : String :=
  match findSourceMatch source natural_keys t with
  | none => "MISSING"
  | some s => if comparisonCondition info columns natural_keys t s then "MISMATCH" else "MATCH"

/-! ## Text primitives

The Python string operations the validator relies on (str.split, str.strip,
int parsing, lexicographic comparison, concatenation), written by structural
recursion over the character list so that every theorem below can be settled
by evaluation. The split hardcodes the three characters of the private
delimiter, which is a fixed constant of the source. -/

def strConcat (a b : String) : String :=
  String.mk (a.data ++ b.data)

/-- Python last_key.split with the fixed delimiter: scan left to right,
cutting at every non-overlapping occurrence of the three delimiter
characters; the empty string yields one empty component, like Python. -/
def splitDelim : List Char → List Char → List (List Char)
  | '~' :: '|' :: '~' :: rest, cur => cur.reverse :: splitDelim rest []
  | c :: rest, cur => splitDelim rest (cur ++ [c])
  | [], cur => [cur.reverse]

/-- Python str.strip character class (our key texts carry none of these; the
definition keeps the call sites faithful). -/
def isSpaceChar (c : Char) : Bool :=
  c == ' ' || c == '\t' || c == '\n' || c == '\r'

/-- Python key_parts[j].strip(). -/
def pyStrip (s : String) : String :=
  String.mk (((s.data.dropWhile isSpaceChar).reverse.dropWhile isSpaceChar).reverse)

def charLt (a b : Char) : Bool :=
  a.toNat < b.toNat

/-- Lexicographic order on text, byte order per character — the collation the
generated SQL uses for string comparison. -/
def listLt : List Char → List Char → Bool
  | [], [] => false
  | [], _ :: _ => true
  | _ :: _, [] => false
  | a :: as, b :: bs =>
    if charLt a b then true else if charLt b a then false else listLt as bs

def strLt (a b : String) : Bool :=
  listLt a.data b.data

def digitVal (c : Char) : Option Nat :=
  if 48 ≤ c.toNat && c.toNat ≤ 57 then some (c.toNat - 48) else none

def parseNatChars : List Char → Option Nat
  | [] => none
  | l =>
    l.foldl (fun acc c =>
      match acc, digitVal c with
      | some n, some d => some (n * 10 + d)
      | _, _ => none) (some 0)

/-- Integer reading of a textual value, used where the generated SQL compares
a numeric column against an unquoted literal. -/
def pyToInt (s : String) : Option Int :=
  match s.data with
  | '-' :: rest => (parseNatChars rest).map (fun n => -(n : Int))
  | l => (parseNatChars l).map (fun n => (n : Int))

/-! ## Resume cursor codec (table_validator.py lines 409-457 and 536-541) -/

/-- The private delimiter of the pagination cursor. -/
def cursorDelim : String := "~|~"

/-- Cursor decoding, line 412: last_key.split on the delimiter. -/
def splitCursor (last_key : String) : List String :=
  (splitDelim last_key.data []).map String.mk

/-- The serialization the builder intends for a natural-key tuple, line 457:
the TO_CHAR forms of the key components joined by the delimiter, with no
escaping of delimiter characters occurring inside a component. -/
def encodeCursor : List String → String
  | [] => ""
  | [s] => s
  | s :: rest => strConcat s (strConcat cursorDelim (encodeCursor rest))

/-- The cursor the generated PL/SQL actually produces for a one-column
natural key K (line 540): the statement assigns
v_key_value := COALESCE(v_key_value || δ, empty) || TO_CHAR(rec.t_K)
with v_key_value reset to NULL per row, and Oracle evaluates NULL || δ to δ,
so the produced cursor is the delimiter followed by the key text. TO_CHAR of
NULL is NULL and concatenating it changes nothing. (For two or more key
columns the line-540 join glues full assignment statements together with a
concatenation operator and the produced block is not well-formed PL/SQL; the
chunk model below therefore covers one-column natural keys.) -/
def chunkLastKey (key : String) (r : Row) : String :=
  strConcat cursorDelim (match colVal r key with | some x => x | none => "")

/-! ## Pagination predicate (table_validator.py lines 404-446) -/

/-- A formatted key literal: the builder renders a cursor component as a
quoted string literal, a TO_DATE literal with the fixed format mask, or an
unquoted numeric literal, by declared type (lines 423-440). -/
inductive KeyLit where
  | str (v : String)
  | date (v : String)
  | num (v : String)
  deriving DecidableEq, Repr

/-- Type dispatch for a cursor component (same branches at lines 424-429 and
435-440): string types quote, DATE wraps in TO_DATE, anything else is numeric. -/
def formatKeyLit (info : ColumnInfo) (col v : String) : KeyLit :=
  if isStringType info col then .str v
  else if isDateType info col then .date v
  else .num v

/-- One atomic pagination comparison: equality or strict greater-than of a
target column against a formatted cursor literal. The builder never emits a
greater-or-equal. -/
inductive PagCond where
  | eq (col : String) (lit : KeyLit)
  | gt (col : String) (lit : KeyLit)
  deriving DecidableEq, Repr

/-- The nested loops of lines 416-443, one disjunct per key index i: equality
conditions for the keys already passed, then a strict greater-than on key i.
The second argument accumulates the equality conjuncts for the processed
prefix, mirroring the inner for-loop over j < i. -/
def pagConds (info : ColumnInfo) : List (String × String) → List PagCond → List (List PagCond)
  | [], _ => []
  | (k, v) :: rest, eqs =>
      (eqs ++ [PagCond.gt k (formatKeyLit info k v)]) ::
        pagConds info rest (eqs ++ [PagCond.eq k (formatKeyLit info k v)])

/-- The pagination condition of lines 409-446. A falsy last_key (None or the
empty string) contributes nothing; otherwise the cursor is split on the
delimiter and, ONLY when the part count equals the key count, the seek
disjunction is built from the stripped parts; on any mismatch the builder
falls through and the WHERE clause gains no pagination condition at all. The
empty list therefore means: no restriction, scan from the top of the key
order. -/
def buildPagination (info : ColumnInfo) (natural_keys : List String)
    (last_key : Option String) : List (List PagCond) :=
  match last_key with
  | none => []
  | some lk =>
    if lk == "" then []
    else
      let key_parts := splitCursor lk
      if key_parts.length == natural_keys.length then
        pagConds info (natural_keys.zip (key_parts.map pyStrip)) []
      else []

/-- Equality of a row value against a formatted literal: textual for quoted
and date literals (the date literal carries the same fixed format the ordering
relies on), numeric when both sides parse as integers, textual fallback
otherwise. -/
def litEq (lit : KeyLit) (x : String) : Bool :=
  match lit with
  | .str v => x == v
  | .date v => x == v
  | .num v =>
    match pyToInt x, pyToInt v with
    | some a, some b => a == b
    | _, _ => x == v

/-- Strict greater-than of a row value over a formatted literal; same
type dispatch as litEq. Text in the fixed date format orders
chronologically under the lexicographic order. -/
def litGt (lit : KeyLit) (x : String) : Bool :=
  match lit with
  | .str v => strLt v x
  | .date v => strLt v x
  | .num v =>
    match pyToInt x, pyToInt v with
    | some a, some b => b < a
    | _, _ => strLt v x

/-- SQL evaluation of one pagination comparison on a row: NULL compares
not-true against any literal. -/
def evalPagCond (r : Row) (c : PagCond) : Bool :=
  match c with
  | .eq col lit => (match colVal r col with | some x => litEq lit x | none => false)
  | .gt col lit => (match colVal r col with | some x => litGt lit x | none => false)

/-- The WHERE contribution of the built pagination: with no disjuncts the
clause is absent (every row passes); otherwise the disjunction of the
conjunctions. -/
def evalPagination (conds : List (List PagCond)) (r : Row) : Bool :=
  if conds.isEmpty then true
  else conds.any (fun conj => conj.all (evalPagCond r))

/-- Line 405: key_ordering is the t-qualified natural keys, joined in the
order declared in the mapping and emitted as ORDER BY with no direction
modifier, i.e. ascending (line 530). -/
inductive SortDirection where
  | asc
  | desc
  deriving DecidableEq, Repr

def orderBySpec (natural_keys : List String) : List (String × SortDirection) :=
  natural_keys.map (fun k => ("t." ++ k, SortDirection.asc))

/-! ## Chunk execution (the c_data cursor and counting loop of
_build_chunk_plsql lines 502-560, as run by _execute_chunk_validation) -/

/-- Oracle ascending comparison of two values of one column: NULLs sort last
ascending, numeric columns compare numerically, string and date columns
compare as text (the date text carries the fixed order-preserving format). -/
def valLt (info : ColumnInfo) (col : String) (a b : SqlVal) : Bool :=
  match a, b with
  | none, _ => false
  | some _, none => true
  | some x, some y =>
    if isStringType info col || isDateType info col then strLt x y
    else
      match pyToInt x, pyToInt y with
      | some i, some j => i < j
      | _, _ => strLt x y

/-- Lexicographic ascending order on the natural-key tuple, key columns in
declared order — the ORDER BY of line 530. -/
def keyTupleLt (info : ColumnInfo) (keys : List String) (r1 r2 : Row) : Bool :=
  match keys with
  | [] => false
  | k :: rest =>
    if valLt info k (colVal r1 k) (colVal r2 k) then true
    else if valLt info k (colVal r2 k) (colVal r1 k) then false
    else keyTupleLt info rest r1 r2

/-- Stable insertion into a list sorted by the key tuple. -/
def insertRow (info : ColumnInfo) (keys : List String) (r : Row) :
    List Row → List Row
  | [] => [r]
  | x :: xs =>
    if keyTupleLt info keys x r then x :: insertRow info keys r xs
    else r :: x :: xs

/-- The ORDER BY of the chunk query: the target rows sorted ascending by the
natural-key tuple. -/
def sortRows (info : ColumnInfo) (keys : List String) (rows : List Row) : List Row :=
  rows.foldr (insertRow info keys) []

/-- The rows one chunk materialises (lines 514-531): target rows passing the
optional WHERE predicate and the pagination condition, ordered by the natural
key, and cut to the first chunk_size rows by FETCH FIRST. The model covers a
one-column natural key (see chunkLastKey) with the incremental filter off. -/
def chunkPage (target : List Row) (info : ColumnInfo) (key : String)
    (whereP : Row → Bool) (last_key : Option String) (chunk_size : Nat) : List Row :=
  let conds := buildPagination info [key] last_key
  ((sortRows info [key] (target.filter whereP)).filter
    (fun r => evalPagination conds r)).take chunk_size

/-- The out binds of one chunk (lines 533-559): per-status counts over the
page, the number of processed rows, and v_last_key — the encoded key of the
last row of the page, NULL when the page is empty. -/
structure ChunkResult where
  matched : Nat
  mismatched : Nat
  missing : Nat
  processed : Nat
  last_key : Option String
  deriving DecidableEq, Repr

def runChunk (target source : List Row) (info : ColumnInfo) (columns : List String)
    (key : String) (whereP : Row → Bool) (last_key : Option String)
    (chunk_size : Nat) : ChunkResult :=
  let page := chunkPage target info key whereP last_key chunk_size
  { matched := (page.filter (fun r => rowStatus source info columns [key] r == "MATCH")).length
    mismatched := (page.filter (fun r => rowStatus source info columns [key] r == "MISMATCH")).length
    missing := (page.filter (fun r => rowStatus source info columns [key] r == "MISSING")).length
    processed := page.length
    last_key := (page.getLast?).map (chunkLastKey key) }

/-! ## Chunk loop (_validate_in_chunks, table_validator.py lines 144-241) -/

/-- The loop state of _validate_in_chunks: the accumulated counts, the
running processed_rows and last_key, plus a trace of the last_key argument
passed to _build_chunk_plsql on each iteration (line 180). -/
structure ChunkLoopAcc where
  matched : Nat
  mismatched : Nat
  missing : Nat
  processed_rows : Nat
  last_key : Option String
  cursors_used : List (Option String)
  deriving DecidableEq, Repr

/-- Lines 166-167: the loop starts at processed_rows = 0 with last_key = None,
whatever any persisted progress entry recorded. -/
def initialChunkLoopAcc : ChunkLoopAcc :=
  { matched := 0, mismatched := 0, missing := 0, processed_rows := 0,
    last_key := none, cursors_used := [] }

/-- The while loop of lines 169-215: while processed_rows < total_rows, run
one chunk, accumulate, checkpoint, and break once a chunk processes fewer
than chunk_size rows. Fuel bounds the number of iterations the model is
willing to unfold; none means the fuel ran out with the loop still running,
the proxy for non-termination. -/
def chunkLoop (target source : List Row) (info : ColumnInfo) (columns : List String)
    (key : String) (whereP : Row → Bool) (chunk_size total_rows : Nat) :
    Nat → ChunkLoopAcc → Option ChunkLoopAcc
  | 0, _ => none
  | fuel + 1, acc =>
    if acc.processed_rows < total_rows then
      let cr := runChunk target source info columns key whereP acc.last_key chunk_size
      let acc' : ChunkLoopAcc :=
        { matched := acc.matched + cr.matched
          mismatched := acc.mismatched + cr.mismatched
          missing := acc.missing + cr.missing
          processed_rows := acc.processed_rows + cr.processed
          last_key := cr.last_key
          cursors_used := acc.cursors_used ++ [acc.last_key] }
      if cr.processed < chunk_size then some acc'
      else chunkLoop target source info columns key whereP chunk_size total_rows fuel acc'
    else some acc

/-- The chunk phase of _validate_in_chunks, entered from its fixed initial
state. -/
def validate_in_chunks (target source : List Row) (info : ColumnInfo)
    (columns : List String) (key : String) (whereP : Row → Bool)
    (chunk_size total_rows fuel : Nat) : Option ChunkLoopAcc :=
  chunkLoop target source info columns key whereP chunk_size total_rows fuel
    initialChunkLoopAcc

/-- _get_table_row_count (lines 125-142) with the incremental filter off:
COUNT(*) over the source table under the optional WHERE predicate. -/
def getTableRowCount (source : List Row) (whereP : Row → Bool) : Nat :=
  (source.filter whereP).length

/-- _count_extra_in_target, simple-count branch (lines 1041-1054): target
rows for which NOT EXISTS a source row agreeing on the natural keys. -/
def countExtraInTarget (target source : List Row) (natural_keys : List String) : Nat :=
  (target.filter (fun t =>
    !(source.any (fun s => natural_keys.all (fun k => sqlEq (colVal t k) (colVal s k)))))).length

/-! ## Configuration (config.py) -/

/-- TableMapping (config.py lines 56-62). chunk_size is declared as a bare
int with default 10000. -/
structure TableMapping where
  source_table : String
  target_table : String
  natural_keys : List String
  exclude_columns : List String
  chunk_size : Int
  where_clause : Option String
  deriving DecidableEq, Repr

/-- The validation pydantic performs on a TableMapping: the class declares no
validator and no field constraint (config.py lines 56-62 carry no gt bound,
and no other code path checks chunk_size), so any well-typed mapping —
including chunk_size = 0 — is accepted unchanged. -/
def validateTableMapping (m : TableMapping) : Except String TableMapping :=
  Except.ok m

/-! ## Progress store and resume (db/repository.py, orchestrator.py) -/

/-- A persisted progress entry as read back by get_latest_progress
(repository.py lines 157-181). -/
structure ProgressEntry where
  table_name : String
  status : String
  total_rows : Nat
  processed_rows : Nat
  last_processed_key : Option String
  deriving DecidableEq, Repr

/-- The statuses resume_validations treats as resumable (orchestrator.py
line 127). -/
def resumableStatuses : List String :=
  ["IN_PROGRESS", "PAUSED", "FAILED"]

/-- resume_validations, filtering phase (orchestrator.py lines 122-136): keep
the mappings whose latest progress entry exists and has a resumable status.
The entry itself is used for nothing else — in particular its
last_processed_key is never read — and the kept mappings re-enter the
ordinary run path. -/
def resumableTables (mappings : List TableMapping)
    (latest : String → Option ProgressEntry) : List TableMapping :=
  mappings.filter (fun m =>
    match latest m.source_table with
    | some p => resumableStatuses.contains p.status
    | none => false)

/-! ## Per-table outcome, orchestrator collection and process exit
(table_validator.py validate_table, orchestrator.py 84-107, main.py 89-105) -/

/-- A validation result row as persisted and as printed by main. -/
structure ValidationOutcome where
  table_name : String
  total_rows : Nat
  matched_rows : Nat
  mismatched_rows : Nat
  missing_in_target : Nat
  extra_in_target : Nat
  status : String
  error_message : Option String
  deriving DecidableEq, Repr

/-- validate_table (table_validator.py lines 22-123). The row-count query is
the first remote call inside the try block; its outcome is an input (the
database may raise). On an error the except branch persists a FAILED result
with zeroed counts and re-raises; on success the chunk phase runs, the extra
sweep follows, and a result with status SUCCESS (no mismatches) or PARTIAL is
persisted and returned. The first component collects the results persisted
via repository.save_result; the second is what the call returns or raises.
The fuel-exhausted branch is a modelling artifact, unreachable whenever the
fuel exceeds total_rows. -/
def validateTable (table_name : String) (target source : List Row) (info : ColumnInfo)
    (columns : List String) (key : String) (whereP : Row → Bool) (chunk_size : Nat)
    (count_query : Except String Nat) (fuel : Nat) :
    List ValidationOutcome × Except String ValidationOutcome :=
  match count_query with
  | Except.error e =>
    let failed : ValidationOutcome :=
      { table_name := table_name, total_rows := 0, matched_rows := 0,
        mismatched_rows := 0, missing_in_target := 0, extra_in_target := 0,
        status := "FAILED", error_message := some e }
    ([failed], Except.error e)
  | Except.ok total_rows =>
    match validate_in_chunks target source info columns key whereP chunk_size total_rows fuel with
    | none => ([], Except.error "model: fuel exhausted")
    | some acc =>
      let res : ValidationOutcome :=
        { table_name := table_name, total_rows := total_rows,
          matched_rows := acc.matched, mismatched_rows := acc.mismatched,
          missing_in_target := acc.missing,
          extra_in_target := countExtraInTarget target source [key],
          status := if acc.mismatched == 0 then "SUCCESS" else "PARTIAL",
          error_message := none }
      ([res], Except.ok res)

/-- _run_concurrent_validations, collection phase (orchestrator.py lines
96-106): a future that raised is logged and contributes nothing to the
returned results list. -/
def collectResults (outcomes : List (Except String ValidationOutcome)) :
    List ValidationOutcome :=
  outcomes.foldl (fun acc o =>
    match o with
    | Except.ok r => acc ++ [r]
    | Except.error _ => acc) []

/-- The per-table summary main prints (main.py lines 92-100): one block per
collected result. -/
def summaryTables (results : List ValidationOutcome) : List (String × String) :=
  results.map (fun r => (r.table_name, r.status))

/-- The completion status of main (main.py lines 102-105): 1 when some
collected result has status FAILED, otherwise 0. -/
def mainExitCode (results : List ValidationOutcome) : Nat :=
  if 0 < (results.filter (fun r => r.status == "FAILED")).length then 1 else 0

/-! ## Concrete fixtures for the evaluated scenarios -/

/-- A table whose single column ID (numeric) is also its natural key. -/
def exInfoID : ColumnInfo := [("ID", "NUMBER")]

def exRow (v : String) : Row := [("ID", some v)]

/-- Three rows with keys 1, 2, 3. -/
def exRows123 : List Row := [exRow "1", exRow "2", exRow "3"]

/-- The absent WHERE predicate: every row passes. -/
def allRowsPass : Row → Bool := fun _ => true

/-- A two-column numeric natural key. -/
def exInfoK2 : ColumnInfo := [("K1", "NUMBER"), ("K2", "NUMBER")]

/-- A two-column key with a string-typed first column. -/
def exInfoStr : ColumnInfo := [("K1", "VARCHAR2"), ("K2", "NUMBER")]

/-- A mapping whose chunk_size is the misconfigured 0. -/
def zeroChunkMapping : TableMapping :=
  { source_table := "EMPLOYEES", target_table := "EMPLOYEES",
    natural_keys := ["ID"], exclude_columns := [], chunk_size := 0,
    where_clause := none }

/-- The mapping of the resume scenario. -/
def exMapping : TableMapping :=
  { source_table := "T", target_table := "T",
    natural_keys := ["ID"], exclude_columns := [], chunk_size := 1,
    where_clause := none }

/-- A progress store whose latest entry for table T is a FAILED attempt
checkpointed at cursor "~|~2" after two processed rows. -/
def exLatest : String → Option ProgressEntry := fun n =>
  if n == "T" then
    some { table_name := "T", status := "FAILED", total_rows := 3,
           processed_rows := 2, last_processed_key := some "~|~2" }
  else none

/-- One run of validate_table in which the very first remote call (the row
count) raises. -/
def exFailedRun : List ValidationOutcome × Except String ValidationOutcome :=
  validateTable "T1" [] [] exInfoID ["ID"] "ID" allRowsPass 100
    (Except.error "ORA-02019: database link error") 10

end DataValidator

namespace DataValidator

/-- C9: is_within_window answers true for the 09:00-17:00 weekday window at
2024-01-15 14:00 (which the embedded calendar confirms is a Monday) and false
at 2024-01-15 20:00; for the midnight-crossing 22:00-02:00 window allowed
every day, 23:00 and 01:00 are inside and 03:00 is outside. -/
theorem is_within_window_spec_examples :
    weekday ⟨2024, 1, 15⟩ = 0 ∧
    is_within_window (some weekdayWindow) ⟨⟨2024, 1, 15⟩, ⟨14, 0⟩⟩ = true ∧
    is_within_window (some weekdayWindow) ⟨⟨2024, 1, 15⟩, ⟨20, 0⟩⟩ = false ∧
    is_within_window (some midnightWindow) ⟨⟨2024, 1, 15⟩, ⟨23, 0⟩⟩ = true ∧
    is_within_window (some midnightWindow) ⟨⟨2024, 1, 16⟩, ⟨1, 0⟩⟩ = true ∧
    is_within_window (some midnightWindow) ⟨⟨2024, 1, 16⟩, ⟨3, 0⟩⟩ = false := by
  decide

/-- C10: with no run window configured, is_within_window is true at every
check time and seconds_until_window_opens is 0, so an absent window never
blocks or delays starting a table validation. -/
theorem no_window_never_blocks :
    (∀ ct : DateTime, is_within_window none ct = true) ∧
    (∀ now : DateTime, seconds_until_window_opens none now = some 0) :=
  ⟨fun _ => rfl, fun _ => rfl⟩

/-- C1: the chunk classifier evaluated on one row of each side. The chunk
reads FROM target LEFT JOIN source, so the row it counts as missing here is
the target-only row with key 1 — a row present in the target and absent from
the source, the same row the extra-in-target sweep counts — while the source
row with key 2, the one actually missing from the target, appears in no chunk
page at all. This refutes the claim that every row counted missing by a chunk
is a source row absent from the target. -/
theorem missing_classification_counts_target_only_rows :
    rowStatus [exRow "2"] exInfoID ["ID"] ["ID"] (exRow "1") = "MISSING" ∧
    (runChunk [exRow "1"] [exRow "2"] exInfoID ["ID"] "ID" allRowsPass none 10).missing = 1 ∧
    (chunkPage [exRow "1"] exInfoID "ID" allRowsPass none 10).filter
        (fun r => rowStatus [exRow "2"] exInfoID ["ID"] ["ID"] r == "MISSING") = [exRow "1"] ∧
    ([exRow "2"].all fun s => !(sqlEq (colVal s "ID") (colVal (exRow "1") "ID"))) = true ∧
    countExtraInTarget [exRow "1"] [exRow "2"] ["ID"] = 1 := by
  decide

/-- C2: with a static source equal to the target (three rows, keys 1, 2, 3)
and chunk_size 2, the loop runs 2 chunks — here equal to ceil(3/2) — but the
accumulated matched + mismatched + missing is 4, not the source total 3: the
cursor produced by the first chunk fails to decode, the pagination condition
is silently dropped, and the second chunk re-reads the first page. -/
theorem chunk_counts_sum_exceeds_source_total :
    getTableRowCount exRows123 allRowsPass = 3 ∧
    validate_in_chunks exRows123 exRows123 exInfoID ["ID"] "ID" allRowsPass 2 3 10 =
      some { matched := 4, mismatched := 0, missing := 0, processed_rows := 4,
             last_key := some "~|~2", cursors_used := [none, some "~|~2"] } := by
  decide

/-- C3: a resume run for table T, whose latest progress entry is FAILED with
last_processed_key "~|~2", does select T as resumable — but the chunk loop it
re-enters is built from last_key None on its first iteration (the trace of
cursor arguments begins with none), so the first chunk is the first page of
the key order, containing the row with key 1, not the page after the
persisted cursor. The persisted cursor is never read. -/
theorem resume_ignores_persisted_cursor :
    resumableTables [exMapping] exLatest = [exMapping] ∧
    (exLatest "T").map (fun p => p.last_processed_key) = some (some "~|~2") ∧
    validate_in_chunks exRows123 exRows123 exInfoID ["ID"] "ID" allRowsPass 1 3 10 =
      some { matched := 3, mismatched := 0, missing := 0, processed_rows := 3,
             last_key := some "~|~1", cursors_used := [none, some "~|~1", some "~|~1"] } ∧
    chunkPage exRows123 exInfoID "ID" allRowsPass none 1 = [exRow "1"] := by
  decide

/-- C4: a cursor that decodes into one component for a two-column natural key
produces the empty pagination condition — the same condition as no cursor at
all — and every row passes it, so the scan silently restarts from the top of
the key order; no CURSOR_DECODE_ERROR (or any failure) exists on this path. -/
theorem malformed_cursor_silently_dropped :
    buildPagination exInfoK2 ["K1", "K2"] (some "5") = [] ∧
    buildPagination exInfoK2 ["K1", "K2"] none = [] ∧
    ∀ r : Row, evalPagination (buildPagination exInfoK2 ["K1", "K2"] (some "5")) r = true := by
  refine ⟨by decide, rfl, fun r => ?_⟩
  have h : buildPagination exInfoK2 ["K1", "K2"] (some "5") = [] := by decide
  rw [h]
  rfl

/-- C5: the codec does not round-trip a key value containing the delimiter
characters: the one-component tuple with value A~|~B encodes to the string
A~|~B, which decodes to the two components A and B, corrupting the field
boundary. Moreover the cursor the generated chunk block actually emits for an
ordinary value carries a leading delimiter, so even the plain value 7 decodes
to two components. -/
theorem cursor_roundtrip_corrupts_delimited_values :
    encodeCursor ["A~|~B"] = "A~|~B" ∧
    splitCursor (encodeCursor ["A~|~B"]) = ["A", "B"] ∧
    splitCursor (encodeCursor ["A~|~B"]) ≠ ["A~|~B"] ∧
    splitCursor (chunkLastKey "ID" (exRow "7")) = ["", "7"] := by
  decide

/-- Divergence helper for C7: with chunk_size 0 every chunk fetches zero rows,
the break condition processed < chunk_size is 0 < 0 and never fires, and
processed_rows never advances, so the while loop of _validate_in_chunks never
exits: the model returns none for every fuel from any state still below
total_rows. -/
theorem chunkLoop_zero_chunk_size_diverges
    (target source : List Row) (info : ColumnInfo) (columns : List String)
    (key : String) (whereP : Row → Bool) (total_rows : Nat) :
    ∀ (fuel : Nat) (acc : ChunkLoopAcc), acc.processed_rows < total_rows →
      chunkLoop target source info columns key whereP 0 total_rows fuel acc = none := by
  intro fuel
  induction fuel with
  | zero => intro acc _; rfl
  | succ n ih =>
    intro acc h
    have hproc : (runChunk target source info columns key whereP acc.last_key 0).processed = 0 := by
      simp [runChunk, chunkPage]
    simp only [chunkLoop, if_pos h]
    rw [if_neg (by omega)]
    exact ih _ (by simpa [hproc] using h)

/-- C7: a TableMapping with chunk_size 0 passes configuration validation
unchanged (config.py places no constraint on the field and no other code path
checks it), and the chunk loop over a three-row source then never terminates:
for every iteration budget the loop is still running. This refutes the claim
that a zero chunk_size is rejected at validation-start. -/
theorem chunk_size_zero_accepted_and_loop_diverges :
    validateTableMapping zeroChunkMapping = Except.ok zeroChunkMapping ∧
    ∀ fuel : Nat,
      validate_in_chunks exRows123 exRows123 exInfoID ["ID"] "ID" allRowsPass 0 3 fuel = none := by
  refine ⟨rfl, fun fuel => ?_⟩
  exact chunkLoop_zero_chunk_size_diverges exRows123 exRows123 exInfoID ["ID"] "ID"
    allRowsPass 3 fuel initialChunkLoopAcc (by decide)

/-- C8: a table whose validation fails persists a FAILED result and re-raises;
the orchestrator catches the exception and collects nothing, so the final
summary contains no outcome for that table and the process completion status
is 0, not non-zero. This refutes the claim that a FAILED outcome yields a
non-zero exit and an entry in the summary. -/
theorem failed_table_invisible_to_summary_and_exit :
    exFailedRun.1 =
      [{ table_name := "T1", total_rows := 0, matched_rows := 0, mismatched_rows := 0,
         missing_in_target := 0, extra_in_target := 0, status := "FAILED",
         error_message := some "ORA-02019: database link error" }] ∧
    collectResults [exFailedRun.2] = [] ∧
    summaryTables (collectResults [exFailedRun.2]) = [] ∧
    mainExitCode (collectResults [exFailedRun.2]) = 0 := by
  decide

/-- Length of the seek disjunction: one disjunct per key. -/
theorem pagConds_length (info : ColumnInfo) :
    ∀ (pairs : List (String × String)) (eqs : List PagCond),
      (pagConds info pairs eqs).length = pairs.length := by
  intro pairs
  induction pairs with
  | nil => intro eqs; rfl
  | cons q rest ih => intro eqs; simp [pagConds, ih]

/-- Shape of the i-th disjunct of the seek disjunction: the accumulated
equality conjuncts, then equalities for the first i pairs, then a strict
greater-than on the i-th pair. -/
theorem pagConds_getElem (info : ColumnInfo) :
    ∀ (pairs : List (String × String)) (eqs : List PagCond) (i : Nat) (p : String × String),
      pairs[i]? = some p →
      (pagConds info pairs eqs)[i]? =
        some (eqs ++ (pairs.take i).map (fun q => PagCond.eq q.1 (formatKeyLit info q.1 q.2)) ++
              [PagCond.gt p.1 (formatKeyLit info p.1 p.2)]) := by
  intro pairs
  induction pairs with
  | nil => intro eqs i p hp; simp at hp
  | cons q rest ih =>
    intro eqs i p hp
    cases i with
    | zero =>
      simp at hp
      subst hp
      simp [pagConds]
    | succ i =>
      simp at hp
      have hrec := ih (eqs ++ [PagCond.eq q.1 (formatKeyLit info q.1 q.2)]) i p hp
      simp [pagConds, hrec, List.append_assoc]

/-- C6: for any natural key and any cursor that is non-empty and decodes into
exactly as many components as the key has columns, the built predicate is a
disjunction with one conjunction per key index i, whose i-th member is the
equalities of key columns 0..i-1 against the (stripped) decoded cursor values
followed by a strict greater-than — never greater-or-equal — on key column i;
and the chunk query orders by the t-qualified natural-key columns in mapping
order, all ascending. -/
theorem pagination_seek_structure (info : ColumnInfo) (natural_keys : List String)
    (lk : String) (h1 : lk ≠ "")
    (h2 : (splitCursor lk).length = natural_keys.length) :
    (buildPagination info natural_keys (some lk)).length = natural_keys.length ∧
    (∀ (i : Nat) (p : String × String),
      (natural_keys.zip ((splitCursor lk).map pyStrip))[i]? = some p →
      (buildPagination info natural_keys (some lk))[i]? =
        some (((natural_keys.zip ((splitCursor lk).map pyStrip)).take i).map
                (fun q => PagCond.eq q.1 (formatKeyLit info q.1 q.2)) ++
              [PagCond.gt p.1 (formatKeyLit info p.1 p.2)])) ∧
    orderBySpec natural_keys = natural_keys.map (fun k => ("t." ++ k, SortDirection.asc)) := by
  have hb : (lk == "") = false := by
    simpa using h1
  have h2' : ((splitCursor lk).length == natural_keys.length) = true := by
    simpa using h2
  have hbuild : buildPagination info natural_keys (some lk) =
      pagConds info (natural_keys.zip ((splitCursor lk).map pyStrip)) [] := by
    simp [buildPagination, hb, h2']
  refine ⟨?_, ?_, rfl⟩
  · rw [hbuild, pagConds_length]
    simp [h2]
  · intro i p hp
    rw [hbuild]
    simpa using pagConds_getElem info _ [] i p hp

/-- Witness for C6 at a concrete two-column key and the cursor a~|~7: the
hypotheses hold by evaluation and the theorem applies. -/
theorem pagination_seek_structure_witness :
    ("a~|~7" ≠ "" ∧ (splitCursor "a~|~7").length = (["K1", "K2"] : List String).length) ∧
    (buildPagination exInfoStr ["K1", "K2"] (some "a~|~7")).length =
      (["K1", "K2"] : List String).length :=
  ⟨⟨by decide, by decide⟩,
   (pagination_seek_structure exInfoStr ["K1", "K2"] "a~|~7" (by decide) (by decide)).1⟩

end DataValidator
